import Mathlib

/-!
Verification development for the beartype runtime type-checking facility.

The definitions below shallowly embed the portions of the code base that the
stated properties depend on:

* the exception hierarchy of beartype/roar.py, as an enumerated type with an
  explicit superclass function;
* the callable testers of beartype/_util/func/utilfunctest.py, over a record
  capturing the facets of a Python object those testers probe;
* the diagnostic-metadata constructor of
  beartype_test/unit/data/hint/pep/data_hintpepmeta.py;
* the hint-shape classifier, modelled from the specification (its code is not
  part of the reviewed sources).
-/

/-- The classes of the beartype exception and warning hierarchy declared by
beartype/roar.py, one constructor per Python class, in declaration order. -/
inductive Exc where
  | BeartypeException
  | BeartypeCaveException
  | BeartypeCaveNoneTypeOrException
  | BeartypeCaveNoneTypeOrKeyException
  | BeartypeCaveNoneTypeOrMutabilityException
  | BeartypeDecorException
  | BeartypeDecorWrappeeException
  | BeartypeDecorWrapperException
  | BeartypeDecorHintException
  | BeartypeDecorHintNonPepException
  | BeartypeDecorHintPepException
  | BeartypeDecorHintPepUnsupportedException
  | BeartypeDecorHintPep484Exception
  | BeartypeDecorParamException
  | BeartypeDecorParamNameException
  | BeartypeDecorPepException
  | BeartypeDecorHintPep563Exception
  | BeartypeCallException
  | BeartypeCallCheckException
  | BeartypeCallCheckUnavailableTypeException
  | BeartypeCallCheckPepException
  | BeartypeCallCheckPepParamException
  | BeartypeCallCheckPepReturnException
  | BeartypeCallCheckNonPepException
  | BeartypeCallCheckNonPepParamException
  | BeartypeCallCheckNonPepReturnException
  | BeartypeWarning
  | _BeartypeDecorBeartypistryException
  | _BeartypeCallBeartypistryException
  | _BeartypeUtilException
  | _BeartypeUtilRaisePepException
  | _BeartypeUtilRaisePepDesynchronizationException
  | _BeartypeUtilCachedException
  | _BeartypeUtilCachedCallableException
  | _BeartypeUtilCachedFixedListException
  | _BeartypeUtilCachedObjectTypedException
deriving DecidableEq, Repr

/-- The direct superclass of each class inside the hierarchy of roar.py.
The roots (BeartypeException, which extends the host Exception type, and
BeartypeWarning, which extends the host UserWarning type) have no parent
inside the hierarchy. -/
def Exc.parent : Exc → Option Exc
  | .BeartypeException => none
  | .BeartypeCaveException => some .BeartypeException
  | .BeartypeCaveNoneTypeOrException => some .BeartypeCaveException
  | .BeartypeCaveNoneTypeOrKeyException => some .BeartypeCaveNoneTypeOrException
  | .BeartypeCaveNoneTypeOrMutabilityException =>
      some .BeartypeCaveNoneTypeOrException
  | .BeartypeDecorException => some .BeartypeException
  | .BeartypeDecorWrappeeException => some .BeartypeDecorException
  | .BeartypeDecorWrapperException => some .BeartypeDecorException
  | .BeartypeDecorHintException => some .BeartypeDecorException
  | .BeartypeDecorHintNonPepException => some .BeartypeDecorHintException
  | .BeartypeDecorHintPepException => some .BeartypeDecorHintException
  | .BeartypeDecorHintPepUnsupportedException =>
      some .BeartypeDecorHintPepException
  | .BeartypeDecorHintPep484Exception => some .BeartypeDecorHintPepException
  | .BeartypeDecorParamException => some .BeartypeDecorException
  | .BeartypeDecorParamNameException => some .BeartypeDecorParamException
  | .BeartypeDecorPepException => some .BeartypeDecorException
  | .BeartypeDecorHintPep563Exception => some .BeartypeDecorPepException
  | .BeartypeCallException => some .BeartypeException
  | .BeartypeCallCheckException => some .BeartypeCallException
  | .BeartypeCallCheckUnavailableTypeException =>
      some .BeartypeCallCheckException
  | .BeartypeCallCheckPepException => some .BeartypeCallCheckException
  | .BeartypeCallCheckPepParamException => some .BeartypeCallCheckPepException
  | .BeartypeCallCheckPepReturnException => some .BeartypeCallCheckPepException
  | .BeartypeCallCheckNonPepException => some .BeartypeCallCheckException
  | .BeartypeCallCheckNonPepParamException =>
      some .BeartypeCallCheckNonPepException
  | .BeartypeCallCheckNonPepReturnException =>
      some .BeartypeCallCheckNonPepException
  | .BeartypeWarning => none
  | ._BeartypeDecorBeartypistryException => some .BeartypeDecorException
  | ._BeartypeCallBeartypistryException => some .BeartypeCallException
  | ._BeartypeUtilException => some .BeartypeException
  | ._BeartypeUtilRaisePepException => some ._BeartypeUtilException
  | ._BeartypeUtilRaisePepDesynchronizationException =>
      some ._BeartypeUtilRaisePepException
  | ._BeartypeUtilCachedException => some ._BeartypeUtilException
  | ._BeartypeUtilCachedCallableException => some ._BeartypeUtilCachedException
  | ._BeartypeUtilCachedFixedListException => some ._BeartypeUtilCachedException
  | ._BeartypeUtilCachedObjectTypedException =>
      some ._BeartypeUtilCachedException

/-- The chain of superclasses of a class, the class itself included, followed
to at most the given depth.  The hierarchy of roar.py is at most five classes
deep, so any fuel of at least five is exact. -/
def Exc.ancestorsAux : Nat → Exc → List Exc
  | 0, c => [c]
  | fuel + 1, c =>
    c :: (match c.parent with
          | none => []
          | some p => Exc.ancestorsAux fuel p)

/-- All superclasses of a class within the hierarchy, the class included. -/
def Exc.ancestors (c : Exc) : List Exc :=
  Exc.ancestorsAux 8 c

/-- The issubclass relation of the embedded hierarchy: reflexive-transitive
closure of Exc.parent. -/
def subclassOf (c d : Exc) : Bool :=
  (Exc.ancestors c).contains d

/-- True exactly for the classes that roar.py declares with
metaclass set to ABCMeta, i.e. the abstract base classes that are never
instantiated; all remaining classes are the concrete exception kinds. -/
def isAbstract : Exc → Bool
  | .BeartypeException => true
  | .BeartypeCaveException => true
  | .BeartypeCaveNoneTypeOrException => true
  | .BeartypeDecorException => true
  | .BeartypeDecorHintException => true
  | .BeartypeDecorHintPepException => true
  | .BeartypeDecorParamException => true
  | .BeartypeDecorPepException => true
  | .BeartypeCallException => true
  | .BeartypeCallCheckException => true
  | .BeartypeCallCheckPepException => true
  | .BeartypeCallCheckNonPepException => true
  | .BeartypeWarning => true
  | ._BeartypeUtilException => true
  | ._BeartypeUtilCachedException => true
  | _ => false

/-- True exactly for the private classes whose docstrings in roar.py state
that they denote a critical internal issue and should never be raised, let
alone percolate up the call stack to end users. -/
def isInternal : Exc → Bool
  | ._BeartypeDecorBeartypistryException => true
  | ._BeartypeCallBeartypistryException => true
  | ._BeartypeUtilException => true
  | ._BeartypeUtilRaisePepException => true
  | ._BeartypeUtilRaisePepDesynchronizationException => true
  | ._BeartypeUtilCachedException => true
  | ._BeartypeUtilCachedCallableException => true
  | ._BeartypeUtilCachedFixedListException => true
  | ._BeartypeUtilCachedObjectTypedException => true
  | _ => false

/-- The phases at which the docstrings of roar.py say exceptions are
raised: decoration time, call time (from the wrapper functions), usage time
(from the types published by the beartype.cave submodule), or unspecified. -/
inductive Phase where
  | decorationTime
  | callTime
  | usageTime
  | anyPhase
deriving DecidableEq, Repr

/-- The phase each class's docstring in roar.py assigns to it.  The cave
family is documented as raised at usage time; the decorator family at
decoration time; the call family from the wrapper functions at call time.
Classes whose docstrings state no phase (the root, the warning root, and the
utility exceptions raised by private submodules) are mapped to anyPhase. -/
def phase : Exc → Phase
  | .BeartypeException => .anyPhase
  | .BeartypeCaveException => .usageTime
  | .BeartypeCaveNoneTypeOrException => .usageTime
  | .BeartypeCaveNoneTypeOrKeyException => .usageTime
  | .BeartypeCaveNoneTypeOrMutabilityException => .usageTime
  | .BeartypeDecorException => .decorationTime
  | .BeartypeDecorWrappeeException => .decorationTime
  | .BeartypeDecorWrapperException => .decorationTime
  | .BeartypeDecorHintException => .decorationTime
  | .BeartypeDecorHintNonPepException => .decorationTime
  | .BeartypeDecorHintPepException => .decorationTime
  | .BeartypeDecorHintPepUnsupportedException => .decorationTime
  | .BeartypeDecorHintPep484Exception => .decorationTime
  | .BeartypeDecorParamException => .decorationTime
  | .BeartypeDecorParamNameException => .decorationTime
  | .BeartypeDecorPepException => .decorationTime
  | .BeartypeDecorHintPep563Exception => .decorationTime
  | .BeartypeCallException => .callTime
  | .BeartypeCallCheckException => .callTime
  | .BeartypeCallCheckUnavailableTypeException => .callTime
  | .BeartypeCallCheckPepException => .callTime
  | .BeartypeCallCheckPepParamException => .callTime
  | .BeartypeCallCheckPepReturnException => .callTime
  | .BeartypeCallCheckNonPepException => .callTime
  | .BeartypeCallCheckNonPepParamException => .callTime
  | .BeartypeCallCheckNonPepReturnException => .callTime
  | .BeartypeWarning => .anyPhase
  | ._BeartypeDecorBeartypistryException => .decorationTime
  | ._BeartypeCallBeartypistryException => .callTime
  | ._BeartypeUtilException => .anyPhase
  | ._BeartypeUtilRaisePepException => .callTime
  | ._BeartypeUtilRaisePepDesynchronizationException => .callTime
  | ._BeartypeUtilCachedException => .anyPhase
  | ._BeartypeUtilCachedCallableException => .anyPhase
  | ._BeartypeUtilCachedFixedListException => .decorationTime
  | ._BeartypeUtilCachedObjectTypedException => .decorationTime

example : subclassOf Exc.BeartypeCallCheckPepParamException
    Exc.BeartypeException = true := by decide

example : subclassOf Exc.BeartypeWarning Exc.BeartypeException = false := by
  decide

/-- The CO_COROUTINE code-object flag imported from the inspect module. -/
def CO_COROUTINE : Nat := 128

/-- The CO_ASYNC_GENERATOR code-object flag imported from the inspect
module. -/
def CO_ASYNC_GENERATOR : Nat := 512

/-- The CO_GENERATOR code-object flag imported from the inspect module. -/
def CO_GENERATOR : Nat := 32

/-- The facets of a Python code object that the callable testers of
utilfunctest.py probe: the co_flags bit field and the fully-qualified
name reported for the code object. -/
structure CodeObj where
  co_flags : Nat
  co_qualname : String
deriving DecidableEq, Repr

/-- The facets of an arbitrary Python object that the callable testers of
utilfunctest.py probe: its underlying code object when it is a pure-Python
callable (and none for C-based callables and non-callables), its dunder
qualname, its dunder closure attribute (none both when the attribute is
absent and when it is the None object, mirroring the getattr default used
by is_func_closure), and whether the object is callable. -/
structure PyFunc where
  codeobj : Option CodeObj
  qualname : String
  closureCells : Option (List Nat)
  isCallable : Bool
deriving DecidableEq, Repr

/-- Modelled from the spec: the host-runtime introspection capability
get_func_codeobj_or_none of beartype._util.func.utilfunccodeobj, whose code
is not among the reviewed sources.  The specification out-scopes it as the
wrapped callable's classification facts supplied by the host; it yields the
code object underlying a pure-Python callable and None otherwise. -/
def get_func_codeobj_or_none (func : PyFunc) : Option CodeObj :=
  func.codeobj

/-- Modelled from the spec: the host-runtime introspection capability
get_func_codeobj_name of beartype._util.func.utilfunccodeobj, whose code is
not among the reviewed sources.  It yields the fully-qualified name of a
code object, as documented by the datafunc.py docstring that contrasts
dunder qualname with the code object's own qualified name. -/
def get_func_codeobj_name (func_codeobj : CodeObj) : String :=
  func_codeobj.co_qualname

/-- The constant of beartype._data.func.datafunc computed as the
fully-qualified code-object name of a noop contextlib.contextmanager-based
context manager.  Its value under the host interpreter is documented in
that module's docstring. -/
def CONTEXTLIB_CONTEXTMANAGER_CODEOBJ_NAME : String :=
  "contextmanager.<locals>.helper"

/-- The tester is_func_async of utilfunctest.py: the object owns a code
object whose flags mark it as an asynchronous coroutine or an asynchronous
generator.  The two flag tests are inlined as in the source. -/
def is_func_async (func : PyFunc) : Bool :=
  match get_func_codeobj_or_none func with
  | none => false
  | some func_codeobj =>
    let func_codeobj_flags := func_codeobj.co_flags
    (Nat.land func_codeobj_flags CO_COROUTINE != 0) ||
    (Nat.land func_codeobj_flags CO_ASYNC_GENERATOR != 0)

/-- The tester is_func_coro of utilfunctest.py: the object owns a code
object whose flags include CO_COROUTINE. -/
def is_func_coro (func : PyFunc) : Bool :=
  match get_func_codeobj_or_none func with
  | none => false
  | some func_codeobj => Nat.land func_codeobj.co_flags CO_COROUTINE != 0

/-- The tester is_func_async_generator of utilfunctest.py: the object owns
a code object whose flags include CO_ASYNC_GENERATOR. -/
def is_func_async_generator (func : PyFunc) : Bool :=
  match get_func_codeobj_or_none func with
  | none => false
  | some func_codeobj =>
      Nat.land func_codeobj.co_flags CO_ASYNC_GENERATOR != 0

/-- The tester is_func_closure of utilfunctest.py: the dunder closure
attribute, read with a None default, is not None. -/
def is_func_closure (func : PyFunc) : Bool :=
  func.closureCells.isSome

/-- The tester is_func_nested of utilfunctest.py: the callable is a closure,
or its dunder qualname contains a dot delimiter signifying a nested lexical
scope, in that order as in the source. -/
def is_func_nested (func : PyFunc) : Bool :=
  is_func_closure func || String.contains func.qualname '.'

/-- The tester is_func_contextlib_contextmanager of utilfunctest.py.  The
interpreter-version constant IS_PYTHON_AT_MOST_3_10 of
beartype._util.py.utilpyversion is passed explicitly as the first argument;
the source reads it as a module-level global fixed by the host interpreter.
When that flag holds, or the object is not a closure, the tester returns
false immediately; otherwise it compares the fully-qualified name of the
underlying code object with the contextlib constant. -/
def is_func_contextlib_contextmanager
    (IS_PYTHON_AT_MOST_3_10 : Bool) (func : PyFunc) : Bool :=
  if IS_PYTHON_AT_MOST_3_10 || !(is_func_closure func) then
    false
  else
    match get_func_codeobj_or_none func with
    | none => false
    | some func_codeobj =>
      get_func_codeobj_name func_codeobj ==
        CONTEXTLIB_CONTEXTMANAGER_CODEOBJ_NAME

example : is_func_async
    ⟨some ⟨128, "f"⟩, "f", none, true⟩ = true := by decide

example : is_func_async
    ⟨some ⟨32, "f"⟩, "f", none, true⟩ = false := by decide

example : is_func_contextlib_contextmanager false
    ⟨some ⟨4 + 8, "contextmanager.<locals>.helper"⟩, "f", some [], true⟩ =
      true := by decide

/-- A Python value as probed by the metadata constructor of
data_hintpepmeta.py: strings, integers, tuples, the None object, and opaque
objects identified by a tag. -/
inductive PyVal where
  | str (s : String)
  | int (n : Int)
  | tuple (items : List PyVal)
  | noneVal
  | obj (tag : Nat)

/-- Whether a Python value is a tuple, as tested by the isinstance asserts
of the metadata constructor. -/
def isPyTuple : PyVal → Bool
  | .tuple _ => true
  | _ => false

/-- Whether a Python value is a string. -/
def isPyStr : PyVal → Bool
  | .str _ => true
  | _ => false

/-- Whether a Python value is a tuple all of whose items are strings, as
tested by the all-items asserts of the metadata constructor. -/
def isTupleOfStrs : PyVal → Bool
  | .tuple items => items.all isPyStr
  | _ => false

/-- The record stored by a successfully constructed
PepHintPithUnsatisfiedMetadata instance of data_hintpepmeta.py: the failing
pith and the two tuples of regex strings over the expected exception
message. -/
structure PepHintPithUnsatisfiedMetadata where
  pith : PyVal
  exception_str_match_regexes : PyVal
  exception_str_not_match_regexes : PyVal

/-- The initializer of PepHintPithUnsatisfiedMetadata: its asserts require
both regex arguments to be tuples whose items are all strings, and on
success the record classifies the three passed parameters unchanged.
Assertion failure is modelled as none. -/
def mkPepHintPithUnsatisfiedMetadata (pith m nm : PyVal) :
    Option PepHintPithUnsatisfiedMetadata :=
  if isPyTuple m && isPyTuple nm && isTupleOfStrs m && isTupleOfStrs nm then
    some ⟨pith, m, nm⟩
  else
    none

/-- The initializer called with both optional regex parameters left at
their declared defaults, which are the empty tuple. -/
def mkPepHintPithUnsatisfiedMetadataDefaults (pith : PyVal) :
    Option PepHintPithUnsatisfiedMetadata :=
  mkPepHintPithUnsatisfiedMetadata pith (PyVal.tuple []) (PyVal.tuple [])

example : mkPepHintPithUnsatisfiedMetadata (PyVal.int 7)
    (PyVal.tuple [PyVal.str "a"]) (PyVal.tuple []) =
      some ⟨PyVal.int 7, PyVal.tuple [PyVal.str "a"], PyVal.tuple []⟩ := by
  rfl

example : mkPepHintPithUnsatisfiedMetadata (PyVal.int 7)
    (PyVal.tuple [PyVal.int 3]) (PyVal.tuple []) = none := by rfl

/-- Modelled from the spec: the raise_pep_call_exception routine of
beartype._util.hint.pep.error, whose code is not among the reviewed sources
(roar.py only declares the exceptions it raises).  Invoked after a check
reported failure for a (pith, hint) pair, it re-derives the diagnostic; if
the re-derivation instead finds the pith apparently satisfying the hint, it
raises the desynchronization exception, and otherwise raises the user-facing
parameter or return violation exception.  The result is the class of the
exception raised. -/
def raise_pep_call_exception
    (isParam : Bool) (pithSatisfiesHintOnRederivation : Bool) : Exc :=
  if pithSatisfiesHintOnRederivation then
    Exc._BeartypeUtilRaisePepDesynchronizationException
  else if isParam then
    Exc.BeartypeCallCheckPepParamException
  else
    Exc.BeartypeCallCheckPepReturnException

/-- Modelled from the spec: the raw type-hint expressions that the Shape
Classifier of the specification consumes.  The classifier's code is not
among the reviewed sources; the constructors follow the HintShape tags of
the specification's data model. -/
inductive Hint where
  | prim (typeId : Nat)
  | union (members : List Hint)
  | sequence (elem : Hint)
  | fixedTuple (elems : List Hint)
  | typeVariable (id : Nat)
  | forwardRef (name : String)
  | literal (values : List Nat)
  | unsupported (reason : String)

/-- Modelled from the spec: the tagged HintShape variant produced by the
Shape Classifier, with child hints kept as raw hints per the specification's
data model. -/
inductive HintShape where
  | primitive (typeId : Nat)
  | unionShape (members : List Hint)
  | sequenceShape (elem : Hint)
  | fixedTupleShape (elems : List Hint)
  | typeVariableShape (id : Nat)
  | forwardRefShape (name : String)
  | literalShape (values : List Nat)
  | unsupportedShape (reason : String)

/-- Modelled from the spec: the recursive flattening of union members, by
which a union of unions becomes one union.  Members that are themselves
unions contribute their own flattened members in place. -/
def flattenUnion : List Hint → List Hint
  | [] => []
  | Hint.union ms :: rest => flattenUnion ms ++ flattenUnion rest
  | h :: rest => h :: flattenUnion rest

/-- Modelled from the spec: the shape of a hint that is not a union.  The
union case is included for totality and never reached on flattened
singleton members, which are union-free. -/
def classifyNonUnion : Hint → HintShape
  | Hint.prim t => .primitive t
  | Hint.union ms => .unionShape ms
  | Hint.sequence e => .sequenceShape e
  | Hint.fixedTuple es => .fixedTupleShape es
  | Hint.typeVariable i => .typeVariableShape i
  | Hint.forwardRef n => .forwardRefShape n
  | Hint.literal vs => .literalShape vs
  | Hint.unsupported r => .unsupportedShape r

/-- Modelled from the spec: the Shape Classifier, a pure total function from
hints to shapes.  Nested unions are flattened, and a union with exactly one
flattened member degenerates to that member's shape. -/
def classify : Hint → HintShape
  | Hint.union ms =>
    match flattenUnion ms with
    | [h] => classifyNonUnion h
    | ms2 => .unionShape ms2
  | h => classifyNonUnion h

example : classify (Hint.union [Hint.union [Hint.prim 1, Hint.prim 2],
    Hint.prim 3]) =
      HintShape.unionShape [Hint.prim 1, Hint.prim 2, Hint.prim 3] := by
  simp [classify, flattenUnion]

example : classify (Hint.union [Hint.prim 1]) = HintShape.primitive 1 := by
  simp [classify, flattenUnion, classifyNonUnion]

/-- C1 counterexample: the claim that every concrete exception class in the
hierarchy rooted at BeartypeException is raised either at decoration time or
at call time, internal-invariant kinds excepted, is false:
BeartypeCaveNoneTypeOrKeyException is concrete, is not internal, and its
docstring places it at usage time from the beartype.cave submodule. -/
theorem excTaxonomyPhasePartitionCex :
    ¬ (∀ c : Exc, subclassOf c Exc.BeartypeException = true →
        isAbstract c = false →
        (isInternal c = true ∨ phase c = Phase.decorationTime ∨
          phase c = Phase.callTime)) := by
  intro h
  have hk := h Exc.BeartypeCaveNoneTypeOrKeyException (by decide) (by decide)
  revert hk
  decide

/-- C1 amended: every concrete exception class in the hierarchy rooted at
BeartypeException is raised at decoration time, at call time, or, for the
beartype.cave kinds, at usage time; internal-invariant kinds may arise at
any phase. -/
theorem excTaxonomyPhasePartition :
    ∀ c : Exc, subclassOf c Exc.BeartypeException = true →
      isAbstract c = false →
      (isInternal c = true ∨ phase c = Phase.decorationTime ∨
        phase c = Phase.callTime ∨ phase c = Phase.usageTime) := by
  intro c
  cases c <;> decide

/-- C1 witness: the amended partition instantiated at the concrete
decoration-time class BeartypeDecorWrappeeException. -/
theorem excTaxonomyPhasePartitionWitness :
    isInternal Exc.BeartypeDecorWrappeeException = true ∨
      phase Exc.BeartypeDecorWrappeeException = Phase.decorationTime ∨
      phase Exc.BeartypeDecorWrappeeException = Phase.callTime ∨
      phase Exc.BeartypeDecorWrappeeException = Phase.usageTime :=
  excTaxonomyPhasePartition Exc.BeartypeDecorWrappeeException
    (by decide) (by decide)

/-- C2: when the diagnostic re-derivation finds the pith apparently
satisfying the hint, the exception raiser signals the desynchronization
exception, which is a subclass of the internal utility family, is marked as
never reaching end users, and is not a subclass of the user-facing
type-violation family rooted at BeartypeCallCheckException. -/
theorem desyncSignalsInternalInvariant :
    ∀ isParam : Bool,
      raise_pep_call_exception isParam true =
        Exc._BeartypeUtilRaisePepDesynchronizationException ∧
      subclassOf Exc._BeartypeUtilRaisePepDesynchronizationException
        Exc._BeartypeUtilException = true ∧
      isInternal Exc._BeartypeUtilRaisePepDesynchronizationException = true ∧
      subclassOf Exc._BeartypeUtilRaisePepDesynchronizationException
        Exc.BeartypeCallCheckException = false := by
  intro isParam
  cases isParam <;> exact ⟨rfl, by decide, by decide, by decide⟩

/-- C3: the exception kind for unsupported hints is a subclass of the
decoration-time base BeartypeDecorException, is not a subclass of the
call-time base BeartypeCallException, and its documented phase is
decoration time. -/
theorem unsupportedHintIsDecorationTime :
    subclassOf Exc.BeartypeDecorHintPepUnsupportedException
      Exc.BeartypeDecorException = true ∧
    subclassOf Exc.BeartypeDecorHintPepUnsupportedException
      Exc.BeartypeCallException = false ∧
    phase Exc.BeartypeDecorHintPepUnsupportedException =
      Phase.decorationTime := by
  decide

/-- C4: parameter and return violations are two distinct call-time kinds:
both are subclasses of the call-time base BeartypeCallException and neither
is a subclass of the other. -/
theorem paramAndReturnViolationsDistinct :
    subclassOf Exc.BeartypeCallCheckPepParamException
      Exc.BeartypeCallException = true ∧
    subclassOf Exc.BeartypeCallCheckPepReturnException
      Exc.BeartypeCallException = true ∧
    subclassOf Exc.BeartypeCallCheckPepParamException
      Exc.BeartypeCallCheckPepReturnException = false ∧
    subclassOf Exc.BeartypeCallCheckPepReturnException
      Exc.BeartypeCallCheckPepParamException = false := by
  decide

/-- C5: is_func_async is a total boolean classification: it returns true
exactly when the object owns a code object whose flags include CO_COROUTINE
or CO_ASYNC_GENERATOR, and it returns false for every object owning no code
object. -/
theorem isFuncAsyncTotalClassification :
    ∀ func : PyFunc,
      (is_func_async func = true ↔
        ∃ c : CodeObj, func.codeobj = some c ∧
          (Nat.land c.co_flags CO_COROUTINE ≠ 0 ∨
            Nat.land c.co_flags CO_ASYNC_GENERATOR ≠ 0)) ∧
      (func.codeobj = none → is_func_async func = false) := by
  rintro ⟨co, q, cl, ic⟩
  cases co with
  | none =>
    refine ⟨?_, fun _ => rfl⟩
    simp [is_func_async, get_func_codeobj_or_none]
  | some c =>
    refine ⟨?_, by intro h; cases h⟩
    simp [is_func_async, get_func_codeobj_or_none]

/-- C5 witness: the classification applied to an object without a code
object, discharging the hypothesis that no code object underlies it. -/
theorem isFuncAsyncTotalClassificationWitness :
    is_func_async ⟨none, "f", none, false⟩ = false :=
  (isFuncAsyncTotalClassification ⟨none, "f", none, false⟩).2 rfl

/-- C8: the inlined implementation of is_func_async agrees with the
disjunction of the dedicated testers is_func_coro and
is_func_async_generator on every object. -/
theorem isFuncAsyncEqCoroOrAsyncGen :
    ∀ func : PyFunc,
      is_func_async func =
        (is_func_coro func || is_func_async_generator func) := by
  rintro ⟨co, q, cl, ic⟩
  cases co <;> rfl

/-- C9: whenever the interpreter flag IS_PYTHON_AT_MOST_3_10 holds, the
tester is_func_contextlib_contextmanager returns false on every input. -/
theorem contextlibContextmanagerFalseAtMost310 :
    ∀ func : PyFunc, is_func_contextlib_contextmanager true func = false := by
  intro func
  rfl

/-- C10: every callable classified as a closure is also classified as
nested. -/
theorem closureImpliesNested :
    ∀ func : PyFunc, func.isCallable = true →
      is_func_closure func = true → is_func_nested func = true := by
  intro func _ h
  simp [is_func_nested, h]

/-- C10 witness: the implication applied to a concrete callable closure
with one captured cell, discharging both hypotheses. -/
theorem closureImpliesNestedWitness :
    is_func_nested ⟨some ⟨0, "outer.<locals>.inner"⟩,
      "outer.<locals>.inner", some [0], true⟩ = true :=
  closureImpliesNested ⟨some ⟨0, "outer.<locals>.inner"⟩,
    "outer.<locals>.inner", some [0], true⟩ rfl rfl

/-- C6: every successfully constructed diagnostic record stores the failing
pith unchanged, its two regex fields are tuples whose items are all strings,
and the initializer's declared defaults for both fields are the empty
tuple. -/
theorem pithUnsatisfiedMetadataInvariant :
    (∀ pith m nm r, mkPepHintPithUnsatisfiedMetadata pith m nm = some r →
      r.pith = pith ∧
      isTupleOfStrs r.exception_str_match_regexes = true ∧
      isTupleOfStrs r.exception_str_not_match_regexes = true) ∧
    (∀ pith, mkPepHintPithUnsatisfiedMetadataDefaults pith =
      some ⟨pith, PyVal.tuple [], PyVal.tuple []⟩) := by
  constructor
  · intro pith m nm r h
    unfold mkPepHintPithUnsatisfiedMetadata at h
    split at h
    · rename_i hcond
      cases h
      simp only [Bool.and_eq_true] at hcond
      exact ⟨rfl, hcond.1.2, hcond.2⟩
    · cases h
  · intro pith
    rfl

/-- C6 witness: the invariant applied to a concrete successful
construction, discharging the hypothesis that the initializer accepted the
arguments. -/
theorem pithUnsatisfiedMetadataInvariantWitness :
    (⟨PyVal.int 42, PyVal.tuple [PyVal.str "a"], PyVal.tuple []⟩ :
        PepHintPithUnsatisfiedMetadata).pith = PyVal.int 42 ∧
    isTupleOfStrs (⟨PyVal.int 42, PyVal.tuple [PyVal.str "a"],
        PyVal.tuple []⟩ :
        PepHintPithUnsatisfiedMetadata).exception_str_match_regexes = true ∧
    isTupleOfStrs (⟨PyVal.int 42, PyVal.tuple [PyVal.str "a"],
        PyVal.tuple []⟩ :
        PepHintPithUnsatisfiedMetadata).exception_str_not_match_regexes =
      true :=
  pithUnsatisfiedMetadataInvariant.1 (PyVal.int 42)
    (PyVal.tuple [PyVal.str "a"]) (PyVal.tuple [])
    ⟨PyVal.int 42, PyVal.tuple [PyVal.str "a"], PyVal.tuple []⟩ rfl

/-- Union flattening distributes over list append. -/
theorem flattenUnion_append (xs ys : List Hint) :
    flattenUnion (xs ++ ys) = flattenUnion xs ++ flattenUnion ys := by
  induction xs with
  | nil => simp [flattenUnion]
  | cons h t ih =>
    cases h <;> simp [flattenUnion, ih, List.append_assoc]

/-- C7: classifying a union containing a nested union equals classifying
the flattened union, for all member hints A, B and C. -/
theorem classifyUnionFlattening (A B C : Hint) :
    classify (Hint.union [Hint.union [A, B], C]) =
      classify (Hint.union [A, B, C]) := by
  have h : flattenUnion [Hint.union [A, B], C] = flattenUnion [A, B, C] := by
    calc flattenUnion [Hint.union [A, B], C]
        = flattenUnion [A, B] ++ flattenUnion [C] := by
          simp [flattenUnion]
      _ = flattenUnion ([A, B] ++ [C]) := (flattenUnion_append [A, B] [C]).symm
      _ = flattenUnion [A, B, C] := rfl
  simp only [classify]
  rw [h]
